import Mathlib

/-!
# Shallow embedding of the HubSpot lifecycle-gate governance core

This file embeds, in Lean 4, the validation engine, the scorecard/violation
store and the alert store of the repository, and proves the specification
claims about them.

Modelling conventions:
* JS `Record<string, string | undefined>` property bags become association
  lists `List (String × String)`; an absent key models `undefined`.
* JS `Map` stores become association lists whose `set` keeps the position of
  an existing key and appends new keys (JS `Map` insertion order).
* JS `number` becomes `Rat` where fractional values occur (scores,
  percentages, parsed numerics) and `Nat` for pure counters.
* JS `Date` becomes `Int` milliseconds since the epoch; `new Date()` becomes
  an explicit `now : Int` argument threaded into each stateful operation, and
  calendar arithmetic (`setDate`) is modelled as arithmetic on epoch
  milliseconds (UTC; the reference uses the host's local calendar).
* `generateId()` becomes an explicit `newId : String` argument.
* JS regular-expression matching (`matchesPattern`) is an external capability
  of the runtime; the engine is parametric in a `matchesPattern` oracle.  No
  rule of the shipped catalog has `type = regex`, so no theorem below depends
  on the oracle's behaviour.
* In-place `Array.prototype.sort` is modelled by a stable insertion sort on
  the same comparator key; where the sorted array is the store's own array
  (aliasing), the store is updated explicitly.
-/

set_option autoImplicit false

namespace HubSpotGov

/-! ## Generic association-list store helpers (JS `Map` semantics) -/

/-- `Map.set`: replace the value at an existing key in place, otherwise
append the new binding at the end (JS `Map` keeps insertion order). -/
def setEntry {α β : Type} [BEq α] (k : α) (v : β) : List (α × β) → List (α × β)
  | [] => [(k, v)]
  | (k', v') :: rest => if k' == k then (k, v) :: rest else (k', v') :: setEntry k v rest

/-- Stable insertion of `x` into a list already sorted by `key` descending:
`x` goes before the first element whose key is not greater than `x`'s. -/
def insertByDesc {α β : Type} [LinearOrder β] (key : α → β) (x : α) : List α → List α
  | [] => [x]
  | y :: ys => if key x < key y then y :: insertByDesc key x ys else x :: y :: ys

/-- Stable sort by `key`, descending — the behaviour of the JS
`arr.sort((a, b) => key(b) - key(a))` calls in the repository (ES2019+
`Array.prototype.sort` is stable, and any two stable sorts by the same
preorder agree). -/
def sortByDesc {α β : Type} [LinearOrder β] (key : α → β) : List α → List α
  | [] => []
  | x :: xs => insertByDesc key x (sortByDesc key xs)

/-! ## Field/value validators (`src/utils/validators.ts`) -/

/-- The characters of the JS regular-expression class `\s` that can occur in
the ASCII/Latin-1 range handled here (space, tab, LF, VT, FF, CR, NBSP). -/
def jsWhitespace (c : Char) : Bool :=
  c == ' ' || c == '\t' || c == '\n' || c == '\x0b' || c == '\x0c' || c == '\r' || c == ' '

/-- `isValidEmail`: the test of `/^[^\s@]+@[^\s@]+\.[^\s@]+$/`.  The string
must split at a single `@` into a non-empty whitespace-free local part and a
whitespace-free domain that has a `.` at an interior position (so that both
the part before and after that dot are non-empty). -/
def isValidEmail (email : String) : Bool :=
  match email.splitOn "@" with
  | [localPart, domain] =>
    decide (0 < localPart.length) && localPart.all (fun c => !jsWhitespace c) &&
    decide (0 < domain.length) && domain.all (fun c => !jsWhitespace c) &&
    ((domain.drop 1).dropRight 1).contains '.'
  | _ => false

/-- Characters removed by `phone.replace(/[\s\-()./]/g, '')`. -/
def phoneStripChar (c : Char) : Bool :=
  jsWhitespace c || c == '-' || c == '(' || c == ')' || c == '.' || c == '/'

/-- `isValidPhone`: strip formatting characters, then test
`/^\+?[0-9]{7,15}$/`. -/
def isValidPhone (phone : String) : Bool :=
  let cleaned := phone.toList.filter (fun c => !phoneStripChar c)
  let digits := match cleaned with
    | '+' :: rest => rest
    | rest => rest
  decide (7 ≤ digits.length) && decide (digits.length ≤ 15) && digits.all (·.isDigit)

/-- `isNonEmpty` on a `string | undefined` value: `undefined` is empty, a
string is non-empty iff its trimmed length is positive, i.e. iff not every
character is whitespace. -/
def isNonEmpty (v : Option String) : Bool :=
  match v with
  | none => false
  | some s => !s.all jsWhitespace

/-- `exists` on a `string | undefined` value: false only for `undefined`. -/
def existsVal (v : Option String) : Bool := v.isSome

/-- `hasMinLength(value, minLength)`. -/
def hasMinLength (value : String) (minLength : Nat) : Bool :=
  minLength ≤ value.length

/-- Value of a digit run, most significant first. -/
def digitsVal (cs : List Char) : Nat :=
  cs.foldl (fun n c => n * 10 + (c.toNat - '0'.toNat)) 0

/-- `parseFloat` applied to a string containing only digits, `.` and `-`:
longest valid prefix `-? digits? (. digits)?`; `0` when no digits were
consumed (`NaN → 0` in `parseNumeric`). -/
def parseFloatCleaned (cs : List Char) : Rat :=
  let signAndRest : Bool × List Char :=
    match cs with
    | '-' :: rest => (true, rest)
    | rest => (false, rest)
  let intPart := signAndRest.2.takeWhile (·.isDigit)
  let afterInt := signAndRest.2.drop intPart.length
  let fracPart :=
    match afterInt with
    | '.' :: rest => rest.takeWhile (·.isDigit)
    | _ => []
  if intPart.isEmpty && fracPart.isEmpty then 0
  else
    let mag : Rat := (digitsVal intPart : Rat) + (digitsVal fracPart : Rat) / ((10 : Rat) ^ fracPart.length)
    if signAndRest.1 then -mag else mag

/-- `parseNumeric` on a `string | undefined`: strip every character that is
not a digit, `.` or `-`, parse as a float, default `0`. -/
def parseNumeric (v : Option String) : Rat :=
  match v with
  | none => 0
  | some s => parseFloatCleaned (s.toList.filter (fun c => c.isDigit || c == '.' || c == '-'))

/-! ## Validation types (`src/types/validation.ts`, `src/types/hubspot.ts`) -/

inductive ObjectType
  | contact
  | deal
deriving DecidableEq, Repr

structure ValidationError where
  code : String
  message : String
  field : Option String := none
  currentValue : Option String := none
  requiredValue : Option String := none
deriving DecidableEq, Repr

structure ValidationWarning where
  code : String
  message : String
  field : Option String := none
  recommendation : Option String := none
deriving DecidableEq, Repr

structure ValidationResult where
  isValid : Bool
  errors : List ValidationError
  warnings : List ValidationWarning
deriving DecidableEq, Repr

inductive FieldRuleType
  | required
  | non_empty
  | regex
  | min_length
  | email
  | phone
deriving DecidableEq, Repr

structure RequiredFieldRule where
  field : String
  label : String
  type : FieldRuleType
  pattern : Option String := none
  minLength : Option Nat := none
  errorMessage : Option String := none
deriving DecidableEq, Repr

structure StageDependency where
  type : String
  target : String
  condition : String
  errorMessage : String
deriving DecidableEq, Repr

/-- A condition's comparison value: `string | number | undefined` (the
`undefined` case is `none` at the `value` field). -/
inductive CondValue
  | str (s : String)
  | num (q : Rat)
deriving DecidableEq, Repr

inductive CondOperator
  | equals
  | not_equals
  | contains
  | greater_than
  | less_than
  | existsOp
deriving DecidableEq, Repr

structure StageCondition where
  field : String
  operator : CondOperator
  value : Option CondValue := none
  errorMessage : String
deriving DecidableEq, Repr

structure StageGateRule where
  id : String
  name : String
  description : String
  fromStage : String
  toStage : String
  requiredFields : List RequiredFieldRule
  dependencies : Option (List StageDependency) := none
  conditions : Option (List StageCondition) := none
  active : Bool
deriving DecidableEq, Repr

/-- Property bag of a request: `Record<string, string | undefined>`. -/
abbrev Properties := List (String × String)

structure ValidationRequest where
  objectType : ObjectType
  objectId : String
  currentStage : String
  targetStage : String
  properties : Properties
  userId : Option String := none
deriving DecidableEq, Repr

/-- `LIFECYCLE_STAGE_ORDER`, in declaration order (the order
`Object.entries` iterates). -/
def LIFECYCLE_STAGE_ORDER : List (String × Nat) :=
  [("subscriber", 0), ("lead", 1), ("marketingqualifiedlead", 2), ("salesqualifiedlead", 3),
   ("opportunity", 4), ("customer", 5), ("evangelist", 6), ("other", 7)]

/-- `DEAL_STAGE_ORDER`, in declaration order. -/
def DEAL_STAGE_ORDER : List (String × Nat) :=
  [("appointmentscheduled", 0), ("qualifiedtobuy", 1), ("presentationscheduled", 2),
   ("decisionmakerboughtin", 3), ("contractsent", 4), ("closedwon", 5), ("closedlost", 6)]

/-- The rank table selected by `objectType` in both stage-order checks. -/
def stageOrderTable (objectType : ObjectType) : List (String × Nat) :=
  match objectType with
  | .contact => LIFECYCLE_STAGE_ORDER
  | .deal => DEAL_STAGE_ORDER

/-! ## Rule catalog (`src/config/rules.ts`) -/

def lifecycleStageRules : List StageGateRule :=
  [{ id := "lifecycle-lead-to-mql",
     name := "Lead to MQL Transition",
     description := "Requirements for promoting a lead to Marketing Qualified Lead",
     fromStage := "lead",
     toStage := "marketingqualifiedlead",
     requiredFields :=
       [{ field := "email", label := "Email", type := .email, errorMessage := some "Valid email is required" },
        { field := "firstname", label := "First Name", type := .non_empty, errorMessage := some "First name is required" },
        { field := "lastname", label := "Last Name", type := .non_empty, errorMessage := some "Last name is required" },
        { field := "company", label := "Company", type := .non_empty, errorMessage := some "Company name is required" }],
     active := true },
   { id := "lifecycle-mql-to-sql",
     name := "MQL to SQL Transition",
     description := "Requirements for promoting an MQL to Sales Qualified Lead",
     fromStage := "marketingqualifiedlead",
     toStage := "salesqualifiedlead",
     requiredFields :=
       [{ field := "phone", label := "Phone", type := .phone, errorMessage := some "Valid phone number is required" },
        { field := "hubspot_owner_id", label := "Contact Owner", type := .required, errorMessage := some "Contact owner must be assigned" }],
     conditions := some
       [{ field := "hs_lead_status", operator := .existsOp,
          errorMessage := "Lead status must be set before SQL promotion" }],
     active := true },
   { id := "lifecycle-sql-to-opportunity",
     name := "SQL to Opportunity Transition",
     description := "Requirements for promoting an SQL to Opportunity",
     fromStage := "salesqualifiedlead",
     toStage := "opportunity",
     requiredFields :=
       [{ field := "hubspot_owner_id", label := "Contact Owner", type := .required, errorMessage := some "Contact owner must be assigned" }],
     dependencies := some
       [{ type := "association", target := "deal", condition := "exists",
          errorMessage := "Contact must be associated with at least one deal" }],
     active := true },
   { id := "lifecycle-opportunity-to-customer",
     name := "Opportunity to Customer Transition",
     description := "Requirements for converting an Opportunity to Customer",
     fromStage := "opportunity",
     toStage := "customer",
     requiredFields := [],
     dependencies := some
       [{ type := "association", target := "deal", condition := "closed_won",
          errorMessage := "Contact must have at least one closed-won deal" }],
     active := true }]

def dealStageRules : List StageGateRule :=
  [{ id := "deal-appointment-to-qualified",
     name := "Appointment to Qualified Transition",
     description := "Requirements for moving from Appointment Scheduled to Qualified to Buy",
     fromStage := "appointmentscheduled",
     toStage := "qualifiedtobuy",
     requiredFields :=
       [{ field := "dealname", label := "Deal Name", type := .non_empty, errorMessage := some "Deal name is required" },
        { field := "amount", label := "Deal Amount", type := .required, errorMessage := some "Deal amount must be set" },
        { field := "hubspot_owner_id", label := "Deal Owner", type := .required, errorMessage := some "Deal owner must be assigned" }],
     active := true },
   { id := "deal-qualified-to-presentation",
     name := "Qualified to Presentation Transition",
     description := "Requirements for moving from Qualified to Buy to Presentation Scheduled",
     fromStage := "qualifiedtobuy",
     toStage := "presentationscheduled",
     requiredFields :=
       [{ field := "closedate", label := "Close Date", type := .required, errorMessage := some "Expected close date must be set" }],
     dependencies := some
       [{ type := "association", target := "contact", condition := "exists",
          errorMessage := "Deal must be associated with at least one contact" }],
     active := true },
   { id := "deal-presentation-to-decision",
     name := "Presentation to Decision Maker Transition",
     description := "Requirements for moving from Presentation Scheduled to Decision Maker Bought In",
     fromStage := "presentationscheduled",
     toStage := "decisionmakerboughtin",
     requiredFields := [],
     conditions := some
       [{ field := "amount", operator := .greater_than, value := some (.num 0),
          errorMessage := "Deal amount must be greater than zero" }],
     active := true },
   { id := "deal-decision-to-contract",
     name := "Decision Maker to Contract Sent Transition",
     description := "Requirements for moving from Decision Maker Bought In to Contract Sent",
     fromStage := "decisionmakerboughtin",
     toStage := "contractsent",
     requiredFields := [],
     active := true },
   { id := "deal-contract-to-won",
     name := "Contract Sent to Closed Won Transition",
     description := "Requirements for closing a deal as won",
     fromStage := "contractsent",
     toStage := "closedwon",
     requiredFields :=
       [{ field := "amount", label := "Deal Amount", type := .required, errorMessage := some "Final deal amount must be set" },
        { field := "closedate", label := "Close Date", type := .required, errorMessage := some "Close date must be set" }],
     active := true }]

def getRulesForObjectType (objectType : ObjectType) : List StageGateRule :=
  (match objectType with
   | .contact => lifecycleStageRules
   | .deal => dealStageRules).filter (·.active)

def getRuleForTransition (objectType : ObjectType) (fromStage toStage : String) :
    Option StageGateRule :=
  (getRulesForObjectType objectType).find?
    (fun rule => rule.fromStage == fromStage && rule.toStage == toStage)

/-! ## Validation engine (`src/validation/engine.ts`) -/

/-- `checkBackwardProgression` (the local `stageOrder` binding is
inlined). -/
def checkBackwardProgression (request : ValidationRequest) : Option ValidationWarning :=
  match (stageOrderTable request.objectType).lookup request.currentStage,
        (stageOrderTable request.objectType).lookup request.targetStage with
  | some currentOrder, some targetOrder =>
    if targetOrder < currentOrder then
      some { code := "BACKWARD_PROGRESSION",
             message := "Moving from " ++ request.currentStage ++ " to " ++ request.targetStage
               ++ " is a backward progression",
             recommendation := some
               "Backward progressions may require manager approval. Ensure this is intentional." }
    else none
  | _, _ => none

/-- `checkSkippedStages` (the local `stageOrder` binding is inlined). -/
def checkSkippedStages (request : ValidationRequest) : Option ValidationWarning :=
  match (stageOrderTable request.objectType).lookup request.currentStage,
        (stageOrderTable request.objectType).lookup request.targetStage with
  | some currentOrder, some targetOrder =>
    if currentOrder + 1 < targetOrder then
      let skipped :=
        ((stageOrderTable request.objectType).filter
          (fun e => decide (currentOrder < e.2) && decide (e.2 < targetOrder))).map Prod.fst
      if skipped.isEmpty then none
      else
        some { code := "SKIPPED_STAGES",
               message := "Skipping stages: " ++ String.intercalate ", " skipped,
               recommendation := some "Consider whether all stage requirements have been met." }
    else none
  | _, _ => none

/-- The per-type check of one `RequiredFieldRule` against the looked-up
value (the `switch (rule.type)` of `validateRequiredFields`). -/
def fieldRuleCheck (matchesPattern : String → String → Bool)
    (rule : RequiredFieldRule) (value : Option String) : Bool :=
  match rule.type with
  | .required => existsVal value
  | .non_empty => isNonEmpty value
  | .email =>
    match value with
    | some s => isValidEmail s
    | none => false
  | .phone =>
    match value with
    | some s => isValidPhone s
    | none => false
  | .regex =>
    match value, rule.pattern with
    | some s, some p => matchesPattern s p
    | _, _ => false
  | .min_length =>
    match value, rule.minLength with
    | some s, some n => hasMinLength s n
    | _, _ => false

/-- The type-specific default error message of `validateRequiredFields`. -/
def fieldRuleDefaultMessage (rule : RequiredFieldRule) : String :=
  match rule.type with
  | .required => rule.label ++ " is required"
  | .non_empty => rule.label ++ " cannot be empty"
  | .email => rule.label ++ " must be a valid email"
  | .phone => rule.label ++ " must be a valid phone number"
  | .regex => rule.label ++ " format is invalid"
  | .min_length =>
    rule.label ++ " must be at least "
      ++ (match rule.minLength with
          | some n => toString n
          | none => "undefined") ++ " characters"

/-- `validateRequiredFields`: one `ValidationError` per failing rule, in
rule order. -/
def validateRequiredFields (matchesPattern : String → String → Bool)
    (rules : List RequiredFieldRule) (properties : Properties) : List ValidationError :=
  rules.filterMap (fun rule =>
    let value := properties.lookup rule.field
    if fieldRuleCheck matchesPattern rule value then none
    else some { code := "INVALID_" ++ rule.field.toUpper,
                message := rule.errorMessage.getD (fieldRuleDefaultMessage rule),
                field := some rule.field,
                currentValue := value })

/-- JS `String.prototype.includes` as a substring test. -/
def jsIncludes (s t : String) : Bool :=
  t.isEmpty || (s.splitOn t).length != 1

/-- The per-operator check of one `StageCondition` (the
`switch (condition.operator)` of `validateConditions`).  `equals` is JS
strict equality on `string | number | undefined` values. -/
def condCheck (condition : StageCondition) (value : Option String) : Bool :=
  match condition.operator with
  | .equals =>
    match value, condition.value with
    | some s, some (.str t) => s == t
    | none, none => true
    | _, _ => false
  | .not_equals =>
    !(match value, condition.value with
      | some s, some (.str t) => s == t
      | none, none => true
      | _, _ => false)
  | .contains =>
    match value, condition.value with
    | some s, some (.str t) => jsIncludes s t
    | _, _ => false
  | .greater_than =>
    match condition.value with
    | some (.num q) => decide (q < parseNumeric value)
    | _ => false
  | .less_than =>
    match condition.value with
    | some (.num q) => decide (parseNumeric value < q)
    | _ => false
  | .existsOp => existsVal value && isNonEmpty value

/-- `validateConditions`: one `ValidationError` per failing condition, in
condition order. -/
def validateConditions (conditions : List StageCondition) (properties : Properties) :
    List ValidationError :=
  conditions.filterMap (fun condition =>
    let value := properties.lookup condition.field
    if condCheck condition value then none
    else some { code := "CONDITION_FAILED_" ++ condition.field.toUpper,
                message := condition.errorMessage,
                field := some condition.field,
                currentValue := value })

/-- The error list built by `validateStageTransition`: required-field errors
then condition errors of the matching rule, empty when no rule matches. -/
def ruleErrors (matchesPattern : String → String → Bool) (request : ValidationRequest) :
    List ValidationError :=
  match getRuleForTransition request.objectType request.currentStage request.targetStage with
  | some rule =>
    validateRequiredFields matchesPattern rule.requiredFields request.properties ++
    (match rule.conditions with
     | some conditions => validateConditions conditions request.properties
     | none => [])
  | none => []

/-- `validateStageTransition`: backward-progression then skipped-stages
warnings, rule-derived errors, `isValid = (errors.length === 0)`. -/
def validateStageTransition (matchesPattern : String → String → Bool)
    (request : ValidationRequest) : ValidationResult :=
  { isValid := (ruleErrors matchesPattern request).isEmpty,
    errors := ruleErrors matchesPattern request,
    warnings := (checkBackwardProgression request).toList ++ (checkSkippedStages request).toList }

/-! ## Scorecard & violation store types (`src/types/scorecard.ts`) -/

inductive Trend
  | improving
  | stable
  | declining
deriving DecidableEq, Repr

inductive PeriodType
  | daily
  | weekly
  | monthly
  | quarterly
deriving DecidableEq, Repr

structure ScorecardPeriod where
  startDate : Int
  endDate : Int
  type : PeriodType
deriving DecidableEq, Repr

structure ScorecardMetrics where
  totalStageTransitions : Nat
  validTransitions : Nat
  invalidAttempts : Nat
  requiredFieldsCompliance : Rat
  averageStageVelocity : Rat
  dealsStagedCorrectly : Nat
  contactsStagedCorrectly : Nat
deriving DecidableEq, Repr

inductive ViolationType
  | missing_required_field
  | invalid_stage_progression
  | skipped_stage
  | dependency_not_met
  | condition_failed
  | backward_progression
deriving DecidableEq, Repr

inductive Severity
  | low
  | medium
  | high
  | critical
deriving DecidableEq, Repr

structure ComplianceViolation where
  id : String
  timestamp : Int
  objectType : ObjectType
  objectId : String
  violationType : ViolationType
  fromStage : String
  toStage : String
  missingFields : Option (List String) := none
  ruleId : String
  ruleName : String
  severity : Severity
  resolved : Bool
  resolvedAt : Option Int := none
deriving DecidableEq, Repr

structure RepScorecard where
  userId : String
  userName : String
  period : ScorecardPeriod
  metrics : ScorecardMetrics
  complianceScore : Rat
  trend : Trend
  violations : List ComplianceViolation
  lastUpdated : Int
deriving DecidableEq, Repr

/-! ## Scorecard service (`src/services/scorecard.service.ts`) -/

/-- The two module-level stores of the scorecard service. -/
structure ScorecardState where
  scorecardStore : List (String × RepScorecard)
  violationStore : List (String × List ComplianceViolation)
deriving DecidableEq, Repr

def emptyScorecardState : ScorecardState := { scorecardStore := [], violationStore := [] }

def msPerDay : Int := 86400000

/-- `getCurrentPeriod`: the current Sunday-start week, hours zeroed to day
boundaries (modelled on UTC epoch days; the epoch day 0 was a Thursday). -/
def getCurrentPeriod (now : Int) : ScorecardPeriod :=
  let dayOfWeek := (now / msPerDay + 4) % 7
  let startOfWeek := (now / msPerDay) * msPerDay - dayOfWeek * msPerDay
  { startDate := startOfWeek, endDate := startOfWeek + 7 * msPerDay - 1, type := .weekly }

def createEmptyMetrics : ScorecardMetrics :=
  { totalStageTransitions := 0, validTransitions := 0, invalidAttempts := 0,
    requiredFieldsCompliance := 100, averageStageVelocity := 0,
    dealsStagedCorrectly := 0, contactsStagedCorrectly := 0 }

/-- `getOrCreateScorecard`: return the stored scorecard, or create, store
and return a fresh one with default metrics and score 100. -/
def getOrCreateScorecard (now : Int) (userId userName : String) (st : ScorecardState) :
    RepScorecard × ScorecardState :=
  match st.scorecardStore.lookup userId with
  | some existing => (existing, st)
  | none =>
    let newScorecard : RepScorecard :=
      { userId := userId, userName := userName, period := getCurrentPeriod now,
        metrics := createEmptyMetrics, complianceScore := 100, trend := .stable,
        violations := [], lastUpdated := now }
    (newScorecard, { st with scorecardStore := setEntry userId newScorecard st.scorecardStore })

/-- `determineSeverity`: thresholds on the missing-field count. -/
def determineSeverity (missingFieldCount : Nat) : Severity :=
  if missingFieldCount = 0 then .low
  else if missingFieldCount ≤ 2 then .medium
  else if missingFieldCount ≤ 4 then .high
  else .critical

/-- `calculateComplianceScore`: 100 on zero transitions, otherwise the
60/40 weighted blend of transition rate and field compliance. -/
def calculateComplianceScore (metrics : ScorecardMetrics) : Rat :=
  if metrics.totalStageTransitions = 0 then 100
  else
    let transitionScore :=
      (metrics.validTransitions : Rat) / (metrics.totalStageTransitions : Rat) * 100
    let fieldScore := metrics.requiredFieldsCompliance
    transitionScore * 0.6 + fieldScore * 0.4

/-- The `recentViolations` count of `calculateTrend`: unresolved violations
timestamped within the last 7 days (`timestamp >= oneWeekAgo`). -/
def recentUnresolvedCount (now : Int) (violations : List ComplianceViolation) : Nat :=
  (violations.filter (fun v => decide (now - 7 * msPerDay ≤ v.timestamp) && !v.resolved)).length

/-- The `olderViolations` count of `calculateTrend`: unresolved violations
older than 7 days (`timestamp < oneWeekAgo`). -/
def olderUnresolvedCount (now : Int) (violations : List ComplianceViolation) : Nat :=
  (violations.filter (fun v => decide (v.timestamp < now - 7 * msPerDay) && !v.resolved)).length

/-- `calculateTrend`: `stable` below 5 recorded violations, otherwise
compare unresolved violations of the last 7 days against older unresolved
ones. -/
def calculateTrend (now : Int) (violations : List ComplianceViolation) : Trend :=
  if violations.length < 5 then .stable
  else
    if recentUnresolvedCount now violations < olderUnresolvedCount now violations then .improving
    else if olderUnresolvedCount now violations < recentUnresolvedCount now violations then .declining
    else .stable

/-- The violation constructed by `recordStageTransition` for an invalid
transition, when both `ruleId` and `ruleName` are supplied (and truthy:
a present-but-empty string is falsy in the `if (ruleId && ruleName)`
guard). -/
def newViolationFor (now : Int) (newId : String) (objectType : ObjectType) (objectId : String)
    (fromStage toStage : String) (missingFields : Option (List String))
    (ruleId ruleName : Option String) : Option ComplianceViolation :=
  match ruleId, ruleName with
  | some rid, some rname =>
    if rid.isEmpty || rname.isEmpty then none
    else
      some { id := newId, timestamp := now, objectType := objectType, objectId := objectId,
             violationType :=
               if (missingFields.getD []).isEmpty then .invalid_stage_progression
               else .missing_required_field,
             fromStage := fromStage, toStage := toStage, missingFields := missingFields,
             ruleId := rid, ruleName := rname,
             severity := determineSeverity (missingFields.getD []).length,
             resolved := false, resolvedAt := none }
  | _, _ => none

/-- `recordStageTransition`: increment the counters, record the violation on
an invalid transition with rule identity, then recompute score, trend and
`lastUpdated` on the stored scorecard. -/
def recordStageTransition (now : Int) (newId : String) (userId userName : String)
    (objectType : ObjectType) (objectId : String) (fromStage toStage : String)
    (isValid : Bool) (missingFields : Option (List String)) (ruleId ruleName : Option String)
    (st : ScorecardState) : ScorecardState :=
  let gc := getOrCreateScorecard now userId userName st
  let scorecard := gc.1
  let st1 := gc.2
  let metrics1 :=
    { scorecard.metrics with
      totalStageTransitions := scorecard.metrics.totalStageTransitions + 1 }
  let metrics2 :=
    if isValid then
      match objectType with
      | .contact =>
        { metrics1 with validTransitions := metrics1.validTransitions + 1,
                        contactsStagedCorrectly := metrics1.contactsStagedCorrectly + 1 }
      | .deal =>
        { metrics1 with validTransitions := metrics1.validTransitions + 1,
                        dealsStagedCorrectly := metrics1.dealsStagedCorrectly + 1 }
    else { metrics1 with invalidAttempts := metrics1.invalidAttempts + 1 }
  let newViolation :=
    if isValid then none
    else newViolationFor now newId objectType objectId fromStage toStage missingFields ruleId ruleName
  let violationStore1 :=
    match newViolation with
    | some v => setEntry userId ((st1.violationStore.lookup userId).getD [] ++ [v]) st1.violationStore
    | none => st1.violationStore
  let scorecard1 :=
    { scorecard with
      metrics := metrics2,
      violations := scorecard.violations ++ newViolation.toList,
      complianceScore := calculateComplianceScore metrics2,
      trend := calculateTrend now ((violationStore1.lookup userId).getD []),
      lastUpdated := now }
  { scorecardStore := setEntry userId scorecard1 st1.scorecardStore,
    violationStore := violationStore1 }

/-- `updateFieldsCompliance`: overwrite the field-compliance percentage when
`totalFields > 0` and bump `lastUpdated`; the compliance score is not
recomputed. -/
def updateFieldsCompliance (now : Int) (userId userName : String)
    (totalFields compliantFields : Int) (st : ScorecardState) : ScorecardState :=
  let gc := getOrCreateScorecard now userId userName st
  let scorecard := gc.1
  let st1 := gc.2
  let scorecard1 :=
    if 0 < totalFields then
      { scorecard with
        metrics := { scorecard.metrics with
                     requiredFieldsCompliance := (compliantFields : Rat) / (totalFields : Rat) * 100 },
        lastUpdated := now }
    else { scorecard with lastUpdated := now }
  { st1 with scorecardStore := setEntry userId scorecard1 st1.scorecardStore }

/-- `getScorecard`. -/
def getScorecard (userId : String) (st : ScorecardState) : Option RepScorecard :=
  st.scorecardStore.lookup userId

/-- `getAllScorecards`: every stored scorecard, sorted by compliance score
descending.  `Array.from(values())` copies, so the store is untouched. -/
def getAllScorecards (st : ScorecardState) : List RepScorecard :=
  sortByDesc (fun sc => sc.complianceScore) (st.scorecardStore.map Prod.snd)

structure ViolationQueryOptions where
  resolved : Option Bool := none
  objectType : Option ObjectType := none
  limit : Option Nat := none
deriving DecidableEq, Repr

/-- `getUserViolations`: filter, sort by timestamp descending, truncate.
When neither the `resolved` nor the `objectType` filter is supplied, the
local variable still aliases the stored array, so the in-place
`Array.prototype.sort` reorders the user's stored violation log itself;
with a filter supplied, `filter` copies and the store is untouched
(`limit` slices a copy either way). -/
def getUserViolations (userId : String) (options : ViolationQueryOptions) (st : ScorecardState) :
    List ComplianceViolation × ScorecardState :=
  let stored := st.violationStore.lookup userId
  let base := stored.getD []
  let filtered1 :=
    match options.resolved with
    | some r => base.filter (fun v => v.resolved == r)
    | none => base
  let filtered2 :=
    match options.objectType with
    | some t => filtered1.filter (fun v => v.objectType == t)
    | none => filtered1
  let sorted := sortByDesc (fun v => v.timestamp) filtered2
  let result :=
    match options.limit with
    | some n => if n = 0 then sorted else sorted.take n
    | none => sorted
  let st' :=
    if stored.isSome && options.resolved.isNone && options.objectType.isNone then
      { st with violationStore := setEntry userId sorted st.violationStore }
    else st
  (result, st')

/-- Mark the first violation with the given id as resolved (the in-place
mutation of the object returned by `Array.prototype.find`). -/
def markResolvedFirst (now : Int) (violationId : String) :
    List ComplianceViolation → List ComplianceViolation
  | [] => []
  | v :: vs =>
    if v.id == violationId then { v with resolved := true, resolvedAt := some now } :: vs
    else v :: markResolvedFirst now violationId vs

/-- `resolveViolation`: false when the user's log has no violation with the
id; otherwise mark it resolved in the log and, when the scorecard's
embedded list also holds the id, there as well. -/
def resolveViolation (now : Int) (userId violationId : String) (st : ScorecardState) :
    Bool × ScorecardState :=
  match st.violationStore.lookup userId with
  | none => (false, st)
  | some violations =>
    match violations.find? (fun v => v.id == violationId) with
    | none => (false, st)
    | some _ =>
      let st1 :=
        { st with violationStore :=
            setEntry userId (markResolvedFirst now violationId violations) st.violationStore }
      let st2 :=
        match st1.scorecardStore.lookup userId with
        | none => st1
        | some scorecard =>
          match scorecard.violations.find? (fun v => v.id == violationId) with
          | none => st1
          | some _ =>
            let scorecard1 :=
              { scorecard with
                violations := markResolvedFirst now violationId scorecard.violations }
            { st1 with scorecardStore := setEntry userId scorecard1 st1.scorecardStore }
      (true, st2)

/-! ## Alert store (`src/alerts/alerts.service.ts`) -/

inductive AlertType
  | stage_gate_violation
  | required_field_missing
  | compliance_threshold
  | sla_breach
  | bulk_violation
  | system_error
deriving DecidableEq, Repr

inductive AlertSeverity
  | info
  | warning
  | error
  | critical
deriving DecidableEq, Repr

/-- A governance alert.  The untyped `metadata` payload
(`Record<string, unknown>`) is write-only in the service and is omitted
from the embedding. -/
structure GovernanceAlert where
  id : String
  type : AlertType
  severity : AlertSeverity
  title : String
  message : String
  objectType : ObjectType
  objectId : String
  userId : String
  timestamp : Int
  acknowledged : Bool
  acknowledgedBy : Option String := none
  acknowledgedAt : Option Int := none
deriving DecidableEq, Repr

/-- The three module-level stores of the alert service: the primary alert
map and the two id-list indices. -/
structure AlertState where
  alertStore : List (String × GovernanceAlert)
  alertsByPortal : List (Int × List String)
  alertsByUser : List (String × List String)
deriving DecidableEq, Repr

def emptyAlertState : AlertState :=
  { alertStore := [], alertsByPortal := [], alertsByUser := [] }

/-- The caller-supplied fields of `createAlert`
(`Omit<GovernanceAlert, 'id' | 'timestamp' | 'acknowledged'>`). -/
structure NewAlertFields where
  type : AlertType
  severity : AlertSeverity
  title : String
  message : String
  objectType : ObjectType
  objectId : String
  userId : String
deriving DecidableEq, Repr

/-- `createAlert`: store the new alert and append its id to the portal and
user indices. -/
def createAlert (now : Int) (newId : String) (portalId : Int) (fields : NewAlertFields)
    (st : AlertState) : GovernanceAlert × AlertState :=
  let newAlert : GovernanceAlert :=
    { id := newId, type := fields.type, severity := fields.severity, title := fields.title,
      message := fields.message, objectType := fields.objectType, objectId := fields.objectId,
      userId := fields.userId, timestamp := now, acknowledged := false }
  let st1 := { st with alertStore := setEntry newId newAlert st.alertStore }
  let portalAlerts := (st1.alertsByPortal.lookup portalId).getD [] ++ [newId]
  let st2 := { st1 with alertsByPortal := setEntry portalId portalAlerts st1.alertsByPortal }
  let userAlerts := (st2.alertsByUser.lookup fields.userId).getD [] ++ [newId]
  (newAlert, { st2 with alertsByUser := setEntry fields.userId userAlerts st2.alertsByUser })

structure AlertQueryOptions where
  acknowledged : Option Bool := none
  severity : Option AlertSeverity := none
  type : Option AlertType := none
  limit : Option Nat := none
deriving DecidableEq, Repr

/-- `getPortalAlerts`: resolve the portal's id list against the primary
store (dropping dangling ids), filter, sort by timestamp descending,
truncate.  `map` copies, so no store is mutated. -/
def getPortalAlerts (portalId : Int) (options : AlertQueryOptions) (st : AlertState) :
    List GovernanceAlert :=
  let alertIds := (st.alertsByPortal.lookup portalId).getD []
  let alerts := alertIds.filterMap (fun id => st.alertStore.lookup id)
  let alerts1 :=
    match options.acknowledged with
    | some b => alerts.filter (fun a => a.acknowledged == b)
    | none => alerts
  let alerts2 :=
    match options.severity with
    | some s => alerts1.filter (fun a => a.severity == s)
    | none => alerts1
  let alerts3 :=
    match options.type with
    | some t => alerts2.filter (fun a => a.type == t)
    | none => alerts2
  let sorted := sortByDesc (fun a => a.timestamp) alerts3
  match options.limit with
  | some n => if n = 0 then sorted else sorted.take n
  | none => sorted

/-- `getUserAlerts`: the per-user analogue (only the `acknowledged` filter
and `limit`). -/
def getUserAlerts (userId : String) (options : AlertQueryOptions) (st : AlertState) :
    List GovernanceAlert :=
  let alertIds := (st.alertsByUser.lookup userId).getD []
  let alerts := alertIds.filterMap (fun id => st.alertStore.lookup id)
  let alerts1 :=
    match options.acknowledged with
    | some b => alerts.filter (fun a => a.acknowledged == b)
    | none => alerts
  let sorted := sortByDesc (fun a => a.timestamp) alerts1
  match options.limit with
  | some n => if n = 0 then sorted else sorted.take n
  | none => sorted

/-- `cleanupOldAlerts`: delete from the primary store every alert strictly
older than the cutoff that is already acknowledged; the portal/user indices
are not touched.  Returns the number deleted. -/
def cleanupOldAlerts (now : Int) (olderThanDays : Int) (st : AlertState) : Nat × AlertState :=
  let cutoffDate := now - olderThanDays * msPerDay
  let deleted :=
    (st.alertStore.filter (fun e => decide (e.2.timestamp < cutoffDate) && e.2.acknowledged)).length
  let kept :=
    st.alertStore.filter (fun e => !(decide (e.2.timestamp < cutoffDate) && e.2.acknowledged))
  (deleted, { st with alertStore := kept })

/-! ## Concrete fixtures used by witnesses and counterexamples -/

/-- A regex oracle for closed evaluations (no catalog rule uses `regex`). -/
def noRegex : String → String → Bool := fun _ _ => false

/-- A request between custom stage names: no rank entries, no matching
rule. -/
def reqCustom : ValidationRequest :=
  { objectType := .contact, objectId := "c-1", currentStage := "customstage1",
    targetStage := "customstage2", properties := [] }

/-- The spec's skipped-stage example: `subscriber → opportunity`
(rank 0 → 4). -/
def reqSkip : ValidationRequest :=
  { objectType := .contact, objectId := "c-2", currentStage := "subscriber",
    targetStage := "opportunity", properties := [] }

/-- One `recordStageTransition` call's arguments (for a fixed user). -/
structure TransitionCall where
  now : Int
  newId : String
  userName : String
  objectType : ObjectType
  objectId : String
  fromStage : String
  toStage : String
  isValid : Bool
  missingFields : Option (List String) := none
  ruleId : Option String := none
  ruleName : Option String := none
deriving DecidableEq, Repr

/-- Fold a sequence of `recordStageTransition` calls for one user. -/
def applyTransitions (userId : String) (calls : List TransitionCall) (st : ScorecardState) :
    ScorecardState :=
  calls.foldl
    (fun s c =>
      recordStageTransition c.now c.newId userId c.userName c.objectType c.objectId
        c.fromStage c.toStage c.isValid c.missingFields c.ruleId c.ruleName s)
    st

def demoValidCall (i : Nat) : TransitionCall :=
  { now := Int.ofNat i, newId := "id-" ++ toString i, userName := "Compliance Score User",
    objectType := .contact, objectId := "contact-" ++ toString i,
    fromStage := "lead", toStage := "marketingqualifiedlead", isValid := true }

def demoInvalidCall (i : Nat) : TransitionCall :=
  { now := Int.ofNat i, newId := "id-" ++ toString i, userName := "Compliance Score User",
    objectType := .contact, objectId := "contact-fail-" ++ toString i,
    fromStage := "lead", toStage := "marketingqualifiedlead", isValid := false,
    missingFields := some ["email"], ruleId := some "rule-1", ruleName := some "Test Rule" }

/-- The spec's compliance-score example: 8 valid then 2 invalid transitions
for one user, field compliance left at its default. -/
def demoCalls : List TransitionCall :=
  (List.range 8).map demoValidCall ++ [demoInvalidCall 8, demoInvalidCall 9]

/-- All but the last of `demoCalls`. -/
def demoCallsFirst9 : List TransitionCall :=
  (List.range 8).map demoValidCall ++ [demoInvalidCall 8]

/-- The state after the first nine of `demoCalls`. -/
def demoState9 : ScorecardState :=
  applyTransitions "compliance-score-user" demoCallsFirst9 emptyScorecardState

/-- The state after all ten of `demoCalls`. -/
def demoState88 : ScorecardState :=
  applyTransitions "compliance-score-user" demoCalls emptyScorecardState

/-- A state whose user `u6` has exactly one (unresolved) violation `v1`. -/
def stOneViolation : ScorecardState :=
  recordStageTransition 0 "v1" "u6" "User Six" .deal "deal-1" "appointmentscheduled"
    "qualifiedtobuy" false (some ["amount"]) (some "rule-1") (some "Test Rule")
    emptyScorecardState

/-- A state whose user `u7` has two violations stored in ascending
timestamp order (`v1` at 0, `v2` one day later), reached by two invalid
transitions. -/
def stAscending : ScorecardState :=
  recordStageTransition msPerDay "v2" "u7" "User Seven" .deal "deal-3" "appointmentscheduled"
    "qualifiedtobuy" false (some ["amount"]) (some "rule-1") (some "Test Rule")
    (recordStageTransition 0 "v1" "u7" "User Seven" .deal "deal-2" "appointmentscheduled"
      "qualifiedtobuy" false (some ["amount"]) (some "rule-1") (some "Test Rule")
      emptyScorecardState)

/-- A violation literal for trend fixtures. -/
def mkTrendViolation (id : String) (timestamp : Int) : ComplianceViolation :=
  { id := id, timestamp := timestamp, objectType := .contact, objectId := "c",
    violationType := .invalid_stage_progression, fromStage := "lead",
    toStage := "marketingqualifiedlead", ruleId := "rule-1", ruleName := "Test Rule",
    severity := .low, resolved := false }

/-- Five unresolved violations, one recent and four older than 7 days
relative to `now = 10 * msPerDay`. -/
def trendViolations : List ComplianceViolation :=
  [mkTrendViolation "t1" 0, mkTrendViolation "t2" 0, mkTrendViolation "t3" 0,
   mkTrendViolation "t4" 0, mkTrendViolation "t5" (9 * msPerDay)]

def mkAlert (id : String) (timestamp : Int) (acknowledged : Bool) : GovernanceAlert :=
  { id := id, type := .stage_gate_violation, severity := .warning, title := "Stage Gate Violation",
    message := "Invalid stage progression", objectType := .contact, objectId := "c-9",
    userId := "u9", timestamp := timestamp, acknowledged := acknowledged }

/-- An alert store with one old acknowledged alert and one old
unacknowledged alert, both indexed under portal 1 and user `u9`. -/
def alertState9 : AlertState :=
  { alertStore := [("a1", mkAlert "a1" 0 true), ("a2", mkAlert "a2" 0 false)],
    alertsByPortal := [(1, ["a1", "a2"])],
    alertsByUser := [("u9", ["a1", "a2"])] }

/-- A freshly created scorecard for user `u10` named `Alice` (created by
`getOrCreateScorecard`, so every derived field still holds its default). -/
def scBase : RepScorecard := (getOrCreateScorecard 0 "u10" "Alice" emptyScorecardState).1

/-- The store holding exactly `scBase`. -/
def stBase : ScorecardState := (getOrCreateScorecard 0 "u10" "Alice" emptyScorecardState).2

/-- The `(totalStageTransitions, validTransitions, invalidAttempts)`
counters stored for a user, all zero while no scorecard exists (the
defaults a first call starts from). -/
def storedCounters (userId : String) (st : ScorecardState) : Nat × Nat × Nat :=
  match st.scorecardStore.lookup userId with
  | some sc => (sc.metrics.totalStageTransitions, sc.metrics.validTransitions,
                sc.metrics.invalidAttempts)
  | none => (0, 0, 0)

/-! ## Store and sorting lemmas -/

theorem lookup_setEntry_self {α β : Type} [BEq α] [LawfulBEq α] (k : α) (v : β) :
    ∀ l : List (α × β), (setEntry k v l).lookup k = some v
  | [] => by simp [setEntry]
  | (k', v') :: rest => by
    rcases eq_or_ne k' k with rfl | h
    · simp [setEntry]
    · have hb : (k' == k) = false := beq_eq_false_iff_ne.mpr h
      have hb' : (k == k') = false := beq_eq_false_iff_ne.mpr (Ne.symm h)
      simp [setEntry, hb, List.lookup_cons, hb', lookup_setEntry_self k v rest]

theorem lookup_setEntry_ne {α β : Type} [BEq α] [LawfulBEq α] (k k₂ : α) (v : β) (h : k₂ ≠ k) :
    ∀ l : List (α × β), (setEntry k v l).lookup k₂ = l.lookup k₂
  | [] => by
    have hb : (k₂ == k) = false := beq_eq_false_iff_ne.mpr h
    simp [setEntry, List.lookup_cons, hb]
  | (k', v') :: rest => by
    rcases eq_or_ne k' k with rfl | h'
    · have hb : (k₂ == k') = false := beq_eq_false_iff_ne.mpr h
      simp [setEntry, List.lookup_cons, hb]
    · have hb : (k' == k) = false := beq_eq_false_iff_ne.mpr h'
      simp [setEntry, hb, List.lookup_cons, lookup_setEntry_ne k k₂ v h rest]

theorem mem_of_lookup_eq_some {α β : Type} [BEq α] [LawfulBEq α] {k : α} {v : β}
    {l : List (α × β)} (h : l.lookup k = some v) : (k, v) ∈ l := by
  obtain ⟨l₁, l₂, rfl, -⟩ := List.lookup_eq_some_iff.mp h
  simp

theorem insertByDesc_perm {α β : Type} [LinearOrder β] (key : α → β) (x : α) :
    ∀ l : List α, (insertByDesc key x l).Perm (x :: l)
  | [] => List.Perm.refl _
  | y :: ys => by
    by_cases h : key x < key y
    · simp only [insertByDesc, if_pos h]
      exact ((insertByDesc_perm key x ys).cons y).trans (List.Perm.swap x y ys)
    · simp only [insertByDesc, if_neg h]
      exact List.Perm.refl _

theorem sortByDesc_perm {α β : Type} [LinearOrder β] (key : α → β) :
    ∀ l : List α, (sortByDesc key l).Perm l
  | [] => List.Perm.refl _
  | x :: xs => (insertByDesc_perm key x _).trans ((sortByDesc_perm key xs).cons x)

theorem length_filter_partition {α : Type} (p : α → Bool) :
    ∀ l : List α, (l.filter p).length + (l.filter (fun a => !p a)).length = l.length
  | [] => rfl
  | x :: xs => by
    have ih := length_filter_partition p xs
    by_cases h : p x <;> simp [List.filter_cons, h] <;> omega

theorem find?_markResolvedFirst (now : Int) (vid : String) :
    ∀ (vs : List ComplianceViolation) (v0 : ComplianceViolation),
      vs.find? (fun v => v.id == vid) = some v0 →
      (markResolvedFirst now vid vs).find? (fun v => v.id == vid)
        = some { v0 with resolved := true, resolvedAt := some now }
  | [], v0 => by simp
  | v :: vs, v0 => by
    intro hf
    by_cases h : (v.id == vid) = true
    · simp only [List.find?, h] at hf
      cases hf
      simp [markResolvedFirst, if_pos h, List.find?, h]
    · have hb : (v.id == vid) = false := by simpa using h
      simp only [List.find?, hb] at hf
      simp only [markResolvedFirst, hb, Bool.false_eq_true, if_false, List.find?]
      exact find?_markResolvedFirst now vid vs v0 hf

/-! ## Stage-rank table facts -/

/-- The exclusive upper bound of the ranks of each table. -/
def tableRankBound (objectType : ObjectType) : Nat :=
  match objectType with
  | .contact => 8
  | .deal => 7

theorem table_ranks_complete (t : ObjectType) :
    ∀ r < tableRankBound t, ∃ e ∈ stageOrderTable t, e.2 = r := by
  cases t <;> decide

theorem table_ranks_bound (t : ObjectType) : ∀ e ∈ stageOrderTable t, e.2 < tableRankBound t := by
  cases t <;> decide

/-- Between any two looked-up ranks that differ by more than one there is a
table entry of strictly intermediate rank, so the skipped-stage list cannot
be empty. -/
theorem skippedStages_nonempty {t : ObjectType} {s2 : String} {c tr : Nat}
    (ht : (stageOrderTable t).lookup s2 = some tr)
    (hgt : c + 1 < tr) :
    ((stageOrderTable t).filter (fun e => decide (c < e.2) && decide (e.2 < tr))).map
      Prod.fst ≠ [] := by
  have hmem : (s2, tr) ∈ stageOrderTable t := mem_of_lookup_eq_some ht
  have htb : tr < tableRankBound t := table_ranks_bound t _ hmem
  obtain ⟨e, he, her⟩ := table_ranks_complete t (c + 1) (by omega)
  intro hnil
  rw [List.map_eq_nil_iff] at hnil
  have hne := List.filter_eq_nil_iff.mp hnil e he
  simp only [her, Bool.and_eq_true, decide_eq_true_eq, not_and] at hne
  omega

theorem checkBackwardProgression_code (req : ValidationRequest) (w : ValidationWarning)
    (h : checkBackwardProgression req = some w) : w.code = "BACKWARD_PROGRESSION" := by
  unfold checkBackwardProgression at h
  rcases hc : (stageOrderTable req.objectType).lookup req.currentStage with _ | c <;>
    rcases ht : (stageOrderTable req.objectType).lookup req.targetStage with _ | t <;>
    simp only [hc, ht] at h
  · cases h
  · cases h
  · cases h
  · by_cases hlt : t < c
    · rw [if_pos hlt] at h
      cases h
      rfl
    · rw [if_neg hlt] at h
      cases h

/-! ## Claim theorems -/

/-- C1: for every `ValidationRequest`, `validateStageTransition` returns
`isValid` true exactly when the error list is empty (warnings never affect
validity), and when no rule matches the `(objectType, currentStage,
targetStage)` triple the error list is empty and `isValid` is true. -/
theorem validateStageTransition_isValid_spec (mp : String → String → Bool)
    (req : ValidationRequest) :
    ((validateStageTransition mp req).isValid = true ↔
        (validateStageTransition mp req).errors = []) ∧
    (getRuleForTransition req.objectType req.currentStage req.targetStage = none →
      (validateStageTransition mp req).errors = [] ∧
      (validateStageTransition mp req).isValid = true) := by
  constructor
  · simp [validateStageTransition]
  · intro h
    simp [validateStageTransition, ruleErrors, h]

/-- Witness for C1 at a request between custom stage names (no matching
rule, so the request is informational-only and valid). -/
theorem validateStageTransition_isValid_spec_witness :
    ((validateStageTransition noRegex reqCustom).isValid = true ↔
        (validateStageTransition noRegex reqCustom).errors = []) ∧
    ((validateStageTransition noRegex reqCustom).errors = [] ∧
        (validateStageTransition noRegex reqCustom).isValid = true) :=
  ⟨(validateStageTransition_isValid_spec noRegex reqCustom).1,
   (validateStageTransition_isValid_spec noRegex reqCustom).2 (by decide)⟩

/-- C5: when both stages have ranks and the target's rank exceeds the
current's by more than one, the result carries exactly one `SKIPPED_STAGES`
warning naming, in the rank table's declaration order, exactly the stages
of strictly intermediate rank; when either stage is missing from the rank
table, no `SKIPPED_STAGES` warning is emitted. -/
theorem skipped_stages_spec (mp : String → String → Bool) (req : ValidationRequest) :
    (∀ c t : Nat,
        (stageOrderTable req.objectType).lookup req.currentStage = some c →
        (stageOrderTable req.objectType).lookup req.targetStage = some t →
        c + 1 < t →
        ((validateStageTransition mp req).warnings.filter
            (fun w => w.code == "SKIPPED_STAGES")) =
          [{ code := "SKIPPED_STAGES",
             message := "Skipping stages: " ++ String.intercalate ", "
               (((stageOrderTable req.objectType).filter
                   (fun e => decide (c < e.2) && decide (e.2 < t))).map Prod.fst),
             recommendation := some "Consider whether all stage requirements have been met." }]) ∧
    (((stageOrderTable req.objectType).lookup req.currentStage = none ∨
      (stageOrderTable req.objectType).lookup req.targetStage = none) →
        ((validateStageTransition mp req).warnings.filter
            (fun w => w.code == "SKIPPED_STAGES")) = []) := by
  have hback : (checkBackwardProgression req).toList.filter
      (fun w => w.code == "SKIPPED_STAGES") = [] := by
    rcases hb : checkBackwardProgression req with _ | w
    · rfl
    · have hcode := checkBackwardProgression_code req w hb
      simp [hcode]
  constructor
  · intro c t hc ht hgt
    have hskip : checkSkippedStages req =
        some { code := "SKIPPED_STAGES",
               message := "Skipping stages: " ++ String.intercalate ", "
                 (((stageOrderTable req.objectType).filter
                     (fun e => decide (c < e.2) && decide (e.2 < t))).map Prod.fst),
               recommendation := some
                 "Consider whether all stage requirements have been met." } := by
      have hne := skippedStages_nonempty ht hgt
      unfold checkSkippedStages
      simp only [hc, ht, if_pos hgt]
      rw [if_neg (by simpa [List.isEmpty_iff] using hne)]
    simp [validateStageTransition, List.filter_append, hback, hskip]
  · intro h
    have hskip : checkSkippedStages req = none := by
      unfold checkSkippedStages
      rcases h with h | h
      · rcases ht2 : (stageOrderTable req.objectType).lookup req.targetStage with _ | t <;>
          simp [h, ht2]
      · rcases hc2 : (stageOrderTable req.objectType).lookup req.currentStage with _ | c <;>
          simp [h, hc2]
    simp [validateStageTransition, List.filter_append, hback, hskip]

/-- Witness for C5 at the spec's example `subscriber → opportunity`
(rank 0 → 4): one warning naming `lead, marketingqualifiedlead,
salesqualifiedlead`. -/
theorem skipped_stages_spec_witness :
    ((validateStageTransition noRegex reqSkip).warnings.filter
        (fun w => w.code == "SKIPPED_STAGES")) =
      [{ code := "SKIPPED_STAGES",
         message := "Skipping stages: " ++ String.intercalate ", "
           (((stageOrderTable reqSkip.objectType).filter
               (fun e => decide (0 < e.2) && decide (e.2 < 4))).map Prod.fst),
         recommendation := some "Consider whether all stage requirements have been met." }] :=
  (skipped_stages_spec noRegex reqSkip).1 0 4 (by decide) (by decide) (by decide)

/-! ## Scorecard counter lemmas -/

theorem recordStageTransition_counters_step (now : Int) (newId userId userName : String)
    (objectType : ObjectType) (objectId fromStage toStage : String) (isValid : Bool)
    (mf : Option (List String)) (rid rname : Option String) (st : ScorecardState) :
    (storedCounters userId (recordStageTransition now newId userId userName objectType objectId
        fromStage toStage isValid mf rid rname st)).1 = (storedCounters userId st).1 + 1 ∧
    (((storedCounters userId (recordStageTransition now newId userId userName objectType objectId
          fromStage toStage isValid mf rid rname st)).2.1 = (storedCounters userId st).2.1 + 1 ∧
      (storedCounters userId (recordStageTransition now newId userId userName objectType objectId
          fromStage toStage isValid mf rid rname st)).2.2 = (storedCounters userId st).2.2) ∨
     ((storedCounters userId (recordStageTransition now newId userId userName objectType objectId
          fromStage toStage isValid mf rid rname st)).2.1 = (storedCounters userId st).2.1 ∧
      (storedCounters userId (recordStageTransition now newId userId userName objectType objectId
          fromStage toStage isValid mf rid rname st)).2.2 = (storedCounters userId st).2.2 + 1)) := by
  unfold storedCounters recordStageTransition getOrCreateScorecard
  rcases hl : st.scorecardStore.lookup userId with _ | sc <;>
    cases isValid <;> cases objectType <;>
      simp [hl, lookup_setEntry_self, createEmptyMetrics]

theorem applyTransitions_counters (userId : String) :
    ∀ (calls : List TransitionCall) (st : ScorecardState),
      (storedCounters userId (applyTransitions userId calls st)).1
        = (storedCounters userId st).1 + calls.length ∧
      ((storedCounters userId (applyTransitions userId calls st)).2.1
          + (storedCounters userId (applyTransitions userId calls st)).2.2)
        = ((storedCounters userId st).2.1 + (storedCounters userId st).2.2) + calls.length
  | [], st => by simp [applyTransitions]
  | c :: cs, st => by
    have hstep := recordStageTransition_counters_step c.now c.newId userId c.userName
      c.objectType c.objectId c.fromStage c.toStage c.isValid c.missingFields c.ruleId
      c.ruleName st
    have ih := applyTransitions_counters userId cs
      (recordStageTransition c.now c.newId userId c.userName c.objectType c.objectId
        c.fromStage c.toStage c.isValid c.missingFields c.ruleId c.ruleName st)
    have happ : applyTransitions userId (c :: cs) st
        = applyTransitions userId cs
            (recordStageTransition c.now c.newId userId c.userName c.objectType c.objectId
              c.fromStage c.toStage c.isValid c.missingFields c.ruleId c.ruleName st) := rfl
    rw [happ]
    rcases hstep with ⟨h1, h2 | h2⟩ <;>
      · simp only [List.length_cons]
        omega

/-- After any `recordStageTransition` call, the stored scorecard's score is
the weighted formula over its (now positive) counters. -/
theorem recordStageTransition_score (now : Int) (newId userId userName : String)
    (objectType : ObjectType) (objectId fromStage toStage : String) (isValid : Bool)
    (mf : Option (List String)) (rid rname : Option String) (st : ScorecardState) :
    ∃ sc : RepScorecard,
      (recordStageTransition now newId userId userName objectType objectId fromStage toStage
          isValid mf rid rname st).scorecardStore.lookup userId = some sc ∧
      0 < sc.metrics.totalStageTransitions ∧
      sc.complianceScore =
        (sc.metrics.validTransitions : Rat) / (sc.metrics.totalStageTransitions : Rat)
            * 100 * 0.6
          + sc.metrics.requiredFieldsCompliance * 0.4 := by
  cases isValid <;> cases objectType <;>
    · simp only [recordStageTransition]
      exact ⟨_, lookup_setEntry_self _ _ _, by simp, by simp [calculateComplianceScore]⟩

/-! ## Claim theorems (continued) -/

/-- C2: after every `recordStageTransition` call the stored scorecard's
`complianceScore` equals
`validTransitions/totalStageTransitions * 100 * 0.6 +
requiredFieldsCompliance * 0.4`; on zero transitions the score is the
default 100; and 8 valid plus 2 invalid transitions with the default field
compliance give exactly 88. -/
theorem complianceScore_spec :
    (∀ (now : Int) (newId userId userName : String) (objectType : ObjectType)
        (objectId fromStage toStage : String) (isValid : Bool)
        (mf : Option (List String)) (rid rname : Option String) (st : ScorecardState),
      ∃ sc : RepScorecard,
        (recordStageTransition now newId userId userName objectType objectId fromStage toStage
            isValid mf rid rname st).scorecardStore.lookup userId = some sc ∧
        0 < sc.metrics.totalStageTransitions ∧
        sc.complianceScore =
          (sc.metrics.validTransitions : Rat) / (sc.metrics.totalStageTransitions : Rat)
              * 100 * 0.6
            + sc.metrics.requiredFieldsCompliance * 0.4) ∧
    (∀ m : ScorecardMetrics, m.totalStageTransitions = 0 → calculateComplianceScore m = 100) ∧
    (∃ sc : RepScorecard,
      getScorecard "compliance-score-user" demoState88 = some sc ∧
      sc.metrics.totalStageTransitions = 10 ∧ sc.metrics.validTransitions = 8 ∧
      sc.metrics.invalidAttempts = 2 ∧ sc.metrics.requiredFieldsCompliance = 100 ∧
      sc.complianceScore = 88) := by
  refine ⟨?_, ?_, ?_⟩
  · intro now newId userId userName objectType objectId fromStage toStage isValid mf rid rname st
    exact recordStageTransition_score now newId userId userName objectType objectId fromStage
      toStage isValid mf rid rname st
  · intro m h
    simp [calculateComplianceScore, h]
  · obtain ⟨sc, hsc, -, hscore⟩ := recordStageTransition_score (demoInvalidCall 9).now
      (demoInvalidCall 9).newId "compliance-score-user" (demoInvalidCall 9).userName
      (demoInvalidCall 9).objectType (demoInvalidCall 9).objectId (demoInvalidCall 9).fromStage
      (demoInvalidCall 9).toStage (demoInvalidCall 9).isValid (demoInvalidCall 9).missingFields
      (demoInvalidCall 9).ruleId (demoInvalidCall 9).ruleName demoState9
    have hsc88 : getScorecard "compliance-score-user" demoState88 = some sc := hsc
    have hnat : (getScorecard "compliance-score-user" demoState88).map
        (fun sc => (sc.metrics.totalStageTransitions, sc.metrics.validTransitions,
          sc.metrics.invalidAttempts)) = some (10, 8, 2) := by decide
    have hrfc : (getScorecard "compliance-score-user" demoState88).map
        (fun sc => sc.metrics.requiredFieldsCompliance) = some 100 := by decide
    rw [hsc88] at hnat hrfc
    simp only [Option.map_some', Option.some.injEq, Prod.mk.injEq] at hnat hrfc
    obtain ⟨htot, hval, hinv⟩ := hnat
    refine ⟨sc, hsc88, htot, hval, hinv, hrfc, ?_⟩
    rw [hscore, htot, hval, hrfc]
    norm_num


/-- Witness for C2: a single valid transition from the empty store, and the
empty-metrics default. -/
theorem complianceScore_spec_witness :
    (∃ sc : RepScorecard,
      (recordStageTransition 0 "w2" "w2-user" "W. Two" .contact "c-w2" "lead"
          "marketingqualifiedlead" true none none none
          emptyScorecardState).scorecardStore.lookup "w2-user" = some sc ∧
      0 < sc.metrics.totalStageTransitions ∧
      sc.complianceScore =
        (sc.metrics.validTransitions : Rat) / (sc.metrics.totalStageTransitions : Rat)
            * 100 * 0.6
          + sc.metrics.requiredFieldsCompliance * 0.4) ∧
    calculateComplianceScore createEmptyMetrics = 100 :=
  ⟨complianceScore_spec.1 0 "w2" "w2-user" "W. Two" .contact "c-w2" "lead"
      "marketingqualifiedlead" true none none none emptyScorecardState,
   complianceScore_spec.2.1 createEmptyMetrics rfl⟩

/-- C3: each `recordStageTransition` call increments
`totalStageTransitions` and exactly one of `validTransitions` or
`invalidAttempts`; a user starting with no scorecard has, after any `N`
calls, `totalStageTransitions = N` and
`validTransitions + invalidAttempts = N`. -/
theorem recordStageTransition_invariant (userId : String) :
    (∀ (c : TransitionCall) (st : ScorecardState),
      (storedCounters userId (recordStageTransition c.now c.newId userId c.userName c.objectType
          c.objectId c.fromStage c.toStage c.isValid c.missingFields c.ruleId c.ruleName st)).1
        = (storedCounters userId st).1 + 1 ∧
      (((storedCounters userId (recordStageTransition c.now c.newId userId c.userName
            c.objectType c.objectId c.fromStage c.toStage c.isValid c.missingFields c.ruleId
            c.ruleName st)).2.1 = (storedCounters userId st).2.1 + 1 ∧
        (storedCounters userId (recordStageTransition c.now c.newId userId c.userName
            c.objectType c.objectId c.fromStage c.toStage c.isValid c.missingFields c.ruleId
            c.ruleName st)).2.2 = (storedCounters userId st).2.2) ∨
       ((storedCounters userId (recordStageTransition c.now c.newId userId c.userName
            c.objectType c.objectId c.fromStage c.toStage c.isValid c.missingFields c.ruleId
            c.ruleName st)).2.1 = (storedCounters userId st).2.1 ∧
        (storedCounters userId (recordStageTransition c.now c.newId userId c.userName
            c.objectType c.objectId c.fromStage c.toStage c.isValid c.missingFields c.ruleId
            c.ruleName st)).2.2 = (storedCounters userId st).2.2 + 1))) ∧
    (∀ (calls : List TransitionCall) (st : ScorecardState),
      st.scorecardStore.lookup userId = none →
      (storedCounters userId (applyTransitions userId calls st)).1 = calls.length ∧
      (storedCounters userId (applyTransitions userId calls st)).2.1
          + (storedCounters userId (applyTransitions userId calls st)).2.2
        = calls.length) := by
  constructor
  · intro c st
    exact recordStageTransition_counters_step c.now c.newId userId c.userName c.objectType
      c.objectId c.fromStage c.toStage c.isValid c.missingFields c.ruleId c.ruleName st
  · intro calls st h
    have := applyTransitions_counters userId calls st
    have hz : storedCounters userId st = (0, 0, 0) := by
      simp [storedCounters, h]
    rw [hz] at this
    simpa using this

/-- Witness for C3: one valid and one invalid transition from the empty
store give counters `(2, 1 + 1)`. -/
theorem recordStageTransition_invariant_witness :
    (storedCounters "w3-user"
        (applyTransitions "w3-user" [demoValidCall 0, demoInvalidCall 1]
          emptyScorecardState)).1 = 2 ∧
    (storedCounters "w3-user"
          (applyTransitions "w3-user" [demoValidCall 0, demoInvalidCall 1]
            emptyScorecardState)).2.1
        + (storedCounters "w3-user"
            (applyTransitions "w3-user" [demoValidCall 0, demoInvalidCall 1]
              emptyScorecardState)).2.2 = 2 :=
  (recordStageTransition_invariant "w3-user").2 [demoValidCall 0, demoInvalidCall 1]
    emptyScorecardState rfl

/-- C4: the trend recomputed by `recordStageTransition` over the user's
violation log is `stable` below 5 logged violations; at 5 or more it is
`improving` iff the unresolved violations of the last 7 days are strictly
fewer than the older unresolved ones, `declining` iff strictly more, and
`stable` iff the counts are equal. -/
theorem calculateTrend_spec :
    (∀ (now : Int) (vs : List ComplianceViolation),
      (vs.length < 5 → calculateTrend now vs = .stable) ∧
      (5 ≤ vs.length →
        (calculateTrend now vs = .improving ↔
          recentUnresolvedCount now vs < olderUnresolvedCount now vs) ∧
        (calculateTrend now vs = .declining ↔
          olderUnresolvedCount now vs < recentUnresolvedCount now vs) ∧
        (calculateTrend now vs = .stable ↔
          recentUnresolvedCount now vs = olderUnresolvedCount now vs))) ∧
    (∀ (now : Int) (newId userId userName : String) (objectType : ObjectType)
        (objectId fromStage toStage : String) (isValid : Bool)
        (mf : Option (List String)) (rid rname : Option String) (st : ScorecardState),
      ∃ sc : RepScorecard,
        (recordStageTransition now newId userId userName objectType objectId fromStage toStage
            isValid mf rid rname st).scorecardStore.lookup userId = some sc ∧
        sc.trend = calculateTrend now
          (((recordStageTransition now newId userId userName objectType objectId fromStage
              toStage isValid mf rid rname st).violationStore.lookup userId).getD [])) := by
  constructor
  · intro now vs
    constructor
    · intro h
      simp [calculateTrend, h]
    · intro h
      have hnl : ¬vs.length < 5 := by omega
      unfold calculateTrend
      rw [if_neg hnl]
      rcases Nat.lt_trichotomy (recentUnresolvedCount now vs) (olderUnresolvedCount now vs)
        with h1 | h1 | h1
      · rw [if_pos h1]
        exact ⟨⟨fun _ => h1, fun _ => rfl⟩,
               ⟨fun h2 => (nomatch h2), fun h2 => absurd h1 (by omega)⟩,
               ⟨fun h2 => (nomatch h2), fun h2 => absurd h1 (by omega)⟩⟩
      · rw [if_neg (by omega), if_neg (by omega)]
        exact ⟨⟨fun h2 => (nomatch h2), fun h2 => absurd h1 (by omega)⟩,
               ⟨fun h2 => (nomatch h2), fun h2 => absurd h1 (by omega)⟩,
               ⟨fun _ => h1, fun _ => rfl⟩⟩
      · rw [if_neg (by omega), if_pos h1]
        exact ⟨⟨fun h2 => (nomatch h2), fun h2 => absurd h1 (by omega)⟩,
               ⟨fun _ => h1, fun _ => rfl⟩,
               ⟨fun h2 => (nomatch h2), fun h2 => absurd h1 (by omega)⟩⟩
  · intro now newId userId userName objectType objectId fromStage toStage isValid mf rid rname st
    simp only [recordStageTransition]
    exact ⟨_, lookup_setEntry_self _ _ _, rfl⟩

/-- Witness for C4: five violations, one recent and four older than 7
days, classify as `improving`. -/
theorem calculateTrend_spec_witness :
    calculateTrend (10 * msPerDay) trendViolations = .improving :=
  ((calculateTrend_spec.1 (10 * msPerDay) trendViolations).2 (by decide)).1.mpr (by decide)

/-- C6: `resolveViolation` returns `false` and leaves the state untouched
when the user's log has no violation with the id; when it does, it returns
`true`, marks the log copy `resolved` with a defined `resolvedAt`, and also
marks the copy embedded in the user's scorecard when one is present. -/
theorem resolveViolation_spec (now : Int) (userId violationId : String) (st : ScorecardState) :
    ((((st.violationStore.lookup userId).getD []).find? (fun v => v.id == violationId)) = none →
      resolveViolation now userId violationId st = (false, st)) ∧
    (∀ v0 : ComplianceViolation,
      (((st.violationStore.lookup userId).getD []).find? (fun v => v.id == violationId))
          = some v0 →
      (resolveViolation now userId violationId st).1 = true ∧
      ((((resolveViolation now userId violationId st).2.violationStore.lookup userId).getD
          []).find? (fun v => v.id == violationId))
        = some { v0 with resolved := true, resolvedAt := some now } ∧
      (∀ sc : RepScorecard, st.scorecardStore.lookup userId = some sc →
        ∀ w0 : ComplianceViolation,
          sc.violations.find? (fun v => v.id == violationId) = some w0 →
          ∃ sc' : RepScorecard,
            (resolveViolation now userId violationId st).2.scorecardStore.lookup userId
              = some sc' ∧
            sc'.violations.find? (fun v => v.id == violationId)
              = some { w0 with resolved := true, resolvedAt := some now })) := by
  rcases hl : st.violationStore.lookup userId with _ | vs
  · constructor
    · intro _
      simp [resolveViolation, hl]
    · intro v0 hv
      simp [hl] at hv
  · constructor
    · intro hf
      simp only [hl, Option.getD_some] at hf
      simp [resolveViolation, hl, hf]
    · intro v0 hf
      simp only [hl, Option.getD_some] at hf
      refine ⟨?_, ?_, ?_⟩
      · rcases hsc : st.scorecardStore.lookup userId with _ | sc
        · simp [resolveViolation, hl, hf, hsc]
        · rcases hw : sc.violations.find? (fun v => v.id == violationId) with _ | w
          · simp [resolveViolation, hl, hf, hsc, hw]
          · simp [resolveViolation, hl, hf, hsc, hw]
      · rcases hsc : st.scorecardStore.lookup userId with _ | sc
        · simp only [resolveViolation, hl, hf, hsc]
          simp [lookup_setEntry_self, find?_markResolvedFirst now violationId vs v0 hf]
        · rcases hw : sc.violations.find? (fun v => v.id == violationId) with _ | w
          · simp only [resolveViolation, hl, hf, hsc, hw]
            simp [lookup_setEntry_self, find?_markResolvedFirst now violationId vs v0 hf]
          · simp only [resolveViolation, hl, hf, hsc, hw]
            simp [lookup_setEntry_self, find?_markResolvedFirst now violationId vs v0 hf]
      · intro sc hsc w0 hw
        simp only [resolveViolation, hl, hf, hsc, hw]
        exact ⟨_, lookup_setEntry_self _ _ _,
          find?_markResolvedFirst now violationId sc.violations w0 hw⟩

/-- Witness for C6: resolving the unknown id `vX` changes nothing; resolving
the known id `v1` succeeds and marks the log copy with `resolvedAt = 5`. -/
theorem resolveViolation_spec_witness :
    resolveViolation 5 "u6" "vX" stOneViolation = (false, stOneViolation) ∧
    (resolveViolation 5 "u6" "v1" stOneViolation).1 = true ∧
    ((((resolveViolation 5 "u6" "v1" stOneViolation).2.violationStore.lookup "u6").getD
        []).find? (fun v => v.id == "v1"))
      = some { id := "v1", timestamp := 0, objectType := .deal, objectId := "deal-1",
               violationType := .missing_required_field, fromStage := "appointmentscheduled",
               toStage := "qualifiedtobuy", missingFields := some ["amount"],
               ruleId := "rule-1", ruleName := "Test Rule", severity := .medium,
               resolved := true, resolvedAt := some 5 } :=
  ⟨(resolveViolation_spec 5 "u6" "vX" stOneViolation).1 (by decide),
   ((resolveViolation_spec 5 "u6" "v1" stOneViolation).2
      { id := "v1", timestamp := 0, objectType := .deal, objectId := "deal-1",
        violationType := .missing_required_field, fromStage := "appointmentscheduled",
        toStage := "qualifiedtobuy", missingFields := some ["amount"], ruleId := "rule-1",
        ruleName := "Test Rule", severity := .medium, resolved := false, resolvedAt := none }
      (by decide)).1,
   ((resolveViolation_spec 5 "u6" "v1" stOneViolation).2
      { id := "v1", timestamp := 0, objectType := .deal, objectId := "deal-1",
        violationType := .missing_required_field, fromStage := "appointmentscheduled",
        toStage := "qualifiedtobuy", missingFields := some ["amount"], ruleId := "rule-1",
        ruleName := "Test Rule", severity := .medium, resolved := false, resolvedAt := none }
      (by decide)).2.1⟩

/-- C8: with `totalFields > 0`, `updateFieldsCompliance` stores
`requiredFieldsCompliance = compliantFields/totalFields * 100` and bumps
`lastUpdated`, while `complianceScore` keeps the value it had before the
call (the default 100 when the scorecard is created by this very call). -/
theorem updateFieldsCompliance_spec (now : Int) (userId userName : String)
    (totalFields compliantFields : Int) (st : ScorecardState) (h : 0 < totalFields) :
    ∃ sc' : RepScorecard,
      (updateFieldsCompliance now userId userName totalFields compliantFields
          st).scorecardStore.lookup userId = some sc' ∧
      sc'.metrics.requiredFieldsCompliance
        = (compliantFields : Rat) / (totalFields : Rat) * 100 ∧
      sc'.lastUpdated = now ∧
      sc'.complianceScore =
        (match st.scorecardStore.lookup userId with
         | some sc => sc.complianceScore
         | none => 100) := by
  unfold updateFieldsCompliance getOrCreateScorecard
  rcases hl : st.scorecardStore.lookup userId with _ | sc <;>
    simp [hl, h, lookup_setEntry_self]

/-- Witness for C8: on a fresh store, `4` fields with `3` compliant store a
75% field compliance, `lastUpdated = 7`, and the untouched default score
100. -/
theorem updateFieldsCompliance_spec_witness :
    ∃ sc' : RepScorecard,
      (updateFieldsCompliance 7 "w8-user" "W. Eight" 4 3
          emptyScorecardState).scorecardStore.lookup "w8-user" = some sc' ∧
      sc'.metrics.requiredFieldsCompliance = ((3 : Int) : Rat) / ((4 : Int) : Rat) * 100 ∧
      sc'.lastUpdated = 7 ∧
      sc'.complianceScore = 100 :=
  updateFieldsCompliance_spec 7 "w8-user" "W. Eight" 4 3 emptyScorecardState (by decide)

/-- C10: once a user's scorecard exists, `getOrCreateScorecard`,
`recordStageTransition` and `updateFieldsCompliance` with any other
`userName` leave the stored `userName` unchanged — it is fixed at lazy
creation. -/
theorem userName_fixed_at_creation (userId : String) (sc : RepScorecard) (st : ScorecardState)
    (h : st.scorecardStore.lookup userId = some sc) :
    (∀ (now : Int) (userName : String),
      (getOrCreateScorecard now userId userName st).1.userName = sc.userName ∧
      (getOrCreateScorecard now userId userName st).2 = st) ∧
    (∀ (now : Int) (newId userName : String) (objectType : ObjectType)
        (objectId fromStage toStage : String) (isValid : Bool) (mf : Option (List String))
        (rid rname : Option String),
      ∃ sc' : RepScorecard,
        (recordStageTransition now newId userId userName objectType objectId fromStage toStage
            isValid mf rid rname st).scorecardStore.lookup userId = some sc' ∧
        sc'.userName = sc.userName) ∧
    (∀ (now : Int) (userName : String) (totalFields compliantFields : Int),
      ∃ sc' : RepScorecard,
        (updateFieldsCompliance now userId userName totalFields compliantFields
            st).scorecardStore.lookup userId = some sc' ∧
        sc'.userName = sc.userName) := by
  refine ⟨?_, ?_, ?_⟩
  · intro now userName
    simp [getOrCreateScorecard, h]
  · intro now newId userName objectType objectId fromStage toStage isValid mf rid rname
    cases isValid <;> cases objectType <;>
      · simp only [recordStageTransition, getOrCreateScorecard, h]
        exact ⟨_, lookup_setEntry_self _ _ _, rfl⟩
  · intro now userName totalFields compliantFields
    simp only [updateFieldsCompliance, getOrCreateScorecard, h]
    refine ⟨_, lookup_setEntry_self _ _ _, ?_⟩
    split <;> rfl

/-- Witness for C10: `u10` was created as `Alice`; calls passing `Mallory`
leave the stored name `Alice`. -/
theorem userName_fixed_at_creation_witness :
    (getOrCreateScorecard 9 "u10" "Mallory" stBase).1.userName = scBase.userName ∧
    (getOrCreateScorecard 9 "u10" "Mallory" stBase).2 = stBase ∧
    (∃ sc' : RepScorecard,
      (recordStageTransition 9 "w10" "u10" "Mallory" .contact "c-10" "lead"
          "marketingqualifiedlead" true none none none stBase).scorecardStore.lookup "u10"
        = some sc' ∧ sc'.userName = scBase.userName) ∧
    (∃ sc' : RepScorecard,
      (updateFieldsCompliance 9 "u10" "Mallory" 4 3 stBase).scorecardStore.lookup "u10"
        = some sc' ∧ sc'.userName = scBase.userName) :=
  have h := userName_fixed_at_creation "u10" scBase stBase (by decide)
  ⟨(h.1 9 "Mallory").1, (h.1 9 "Mallory").2,
   h.2.1 9 "w10" "Mallory" .contact "c-10" "lead" "marketingqualifiedlead" true none none none,
   h.2.2 9 "Mallory" 4 3⟩

/-- C9: `cleanupOldAlerts` keeps exactly the alerts that are not both
strictly older than the cutoff and acknowledged (so an unacknowledged
alert is never deleted), returns the number removed, and leaves the
portal/user id indices untouched. -/
theorem cleanupOldAlerts_spec (now olderThanDays : Int) (st : AlertState) :
    (∀ e : String × GovernanceAlert,
      e ∈ (cleanupOldAlerts now olderThanDays st).2.alertStore ↔
        (e ∈ st.alertStore ∧
          ¬(e.2.timestamp < now - olderThanDays * msPerDay ∧ e.2.acknowledged = true))) ∧
    (∀ e ∈ st.alertStore, e.2.acknowledged = false →
      e ∈ (cleanupOldAlerts now olderThanDays st).2.alertStore) ∧
    (cleanupOldAlerts now olderThanDays st).1
      = st.alertStore.length - (cleanupOldAlerts now olderThanDays st).2.alertStore.length ∧
    (cleanupOldAlerts now olderThanDays st).2.alertsByPortal = st.alertsByPortal ∧
    (cleanupOldAlerts now olderThanDays st).2.alertsByUser = st.alertsByUser := by
  refine ⟨?_, ?_, ?_, rfl, rfl⟩
  · intro e
    simp only [cleanupOldAlerts]
    constructor
    · intro hmem
      have h2 := List.mem_filter.mp hmem
      refine ⟨h2.1, ?_⟩
      intro hcontra
      have hp := h2.2
      rw [hcontra.2] at hp
      simp [hcontra.1] at hp
    · intro h2
      refine List.mem_filter.mpr ⟨h2.1, ?_⟩
      by_cases hts : e.2.timestamp < now - olderThanDays * msPerDay
      · by_cases hack : e.2.acknowledged = true
        · exact absurd ⟨hts, hack⟩ h2.2
        · rw [Bool.not_eq_true] at hack
          simp [hack]
      · simp [hts]
  · intro e he hack
    simp [cleanupOldAlerts, List.mem_filter, he, hack]
  · have hpart := length_filter_partition
      (fun e : String × GovernanceAlert =>
        decide (e.2.timestamp < now - olderThanDays * msPerDay) && e.2.acknowledged)
      st.alertStore
    simp only [cleanupOldAlerts]
    omega

/-- Witness for C9 on a two-alert store: the old unacknowledged alert
survives, one alert is deleted, the portal index keeps its (now stale)
ids. -/
theorem cleanupOldAlerts_spec_witness :
    ("a2", mkAlert "a2" 0 false) ∈ (cleanupOldAlerts (100 * msPerDay) 30
        alertState9).2.alertStore ∧
    (cleanupOldAlerts (100 * msPerDay) 30 alertState9).1
      = alertState9.alertStore.length
        - (cleanupOldAlerts (100 * msPerDay) 30 alertState9).2.alertStore.length ∧
    (cleanupOldAlerts (100 * msPerDay) 30 alertState9).2.alertsByPortal
      = alertState9.alertsByPortal :=
  ⟨(cleanupOldAlerts_spec (100 * msPerDay) 30 alertState9).2.1
      ("a2", mkAlert "a2" 0 false) (by decide) (by decide),
   (cleanupOldAlerts_spec (100 * msPerDay) 30 alertState9).2.2.1,
   (cleanupOldAlerts_spec (100 * msPerDay) 30 alertState9).2.2.2.1⟩

/-- C7 counterexample: the queries are not all read-only — `getUserViolations`
without filters sorts the stored array in place, so on a log stored in
ascending timestamp order the stored violation log itself changes. -/
theorem getUserViolations_not_readonly :
    (getUserViolations "u7" ⟨none, none, none⟩ stAscending).2.violationStore
      ≠ stAscending.violationStore := by decide

/-- C7 (amended): `getUserViolations` never touches the scorecard store or
any other user's log, its only effect is replacing the queried user's
stored log by a permutation of itself (the in-place descending-timestamp
sort), and it changes nothing at all when a `resolved` or `objectType`
filter is supplied.  (`getScorecard`, `getAllScorecards`, `getPortalAlerts`
and `getUserAlerts` only build fresh lists and are embedded as pure
functions of the state.) -/
theorem query_frame_spec (userId : String) (options : ViolationQueryOptions)
    (st : ScorecardState) :
    (getUserViolations userId options st).2.scorecardStore = st.scorecardStore ∧
    (∀ u : String, u ≠ userId →
      (getUserViolations userId options st).2.violationStore.lookup u
        = st.violationStore.lookup u) ∧
    (((getUserViolations userId options st).2.violationStore.lookup userId).getD []).Perm
      ((st.violationStore.lookup userId).getD []) ∧
    ((options.resolved ≠ none ∨ options.objectType ≠ none) →
      (getUserViolations userId options st).2 = st) := by
  rcases hr : options.resolved with _ | r
  · rcases ho : options.objectType with _ | t
    · rcases hl : st.violationStore.lookup userId with _ | vs
      · refine ⟨?_, ?_, ?_, ?_⟩
        · simp [getUserViolations, hr, ho, hl]
        · intro u hu
          simp [getUserViolations, hr, ho, hl]
        · simp [getUserViolations, hr, ho, hl]
        · intro hopts
          rcases hopts with hbad | hbad
          · exact absurd rfl hbad
          · exact absurd rfl hbad
      · refine ⟨?_, ?_, ?_, ?_⟩
        · simp [getUserViolations, hr, ho, hl]
        · intro u hu
          simp only [getUserViolations, hr, ho, hl]
          simp [lookup_setEntry_ne _ _ _ hu]
        · simp only [getUserViolations, hr, ho, hl]
          simp [lookup_setEntry_self]
          exact sortByDesc_perm _ vs
        · intro hopts
          rcases hopts with hbad | hbad
          · exact absurd rfl hbad
          · exact absurd rfl hbad
    · have hst : (getUserViolations userId options st).2 = st := by
        simp [getUserViolations, ho]
      refine ⟨by rw [hst], fun u _ => by rw [hst], by rw [hst], fun _ => hst⟩
  · have hst : (getUserViolations userId options st).2 = st := by
      simp [getUserViolations, hr]
    refine ⟨by rw [hst], fun u _ => by rw [hst], by rw [hst], fun _ => hst⟩

/-- Witness for C7 (amended) on the ascending two-violation log: scorecard
store untouched, other users untouched, the queried log permuted, and a
filtered query leaves the whole state unchanged. -/
theorem query_frame_spec_witness :
    (getUserViolations "u7" ⟨none, none, none⟩ stAscending).2.scorecardStore
        = stAscending.scorecardStore ∧
    (getUserViolations "u7" ⟨none, none, none⟩ stAscending).2.violationStore.lookup "other"
        = stAscending.violationStore.lookup "other" ∧
    (((getUserViolations "u7" ⟨none, none, none⟩ stAscending).2.violationStore.lookup
        "u7").getD []).Perm ((stAscending.violationStore.lookup "u7").getD []) ∧
    (getUserViolations "u7" ⟨some true, none, none⟩ stAscending).2 = stAscending :=
  ⟨(query_frame_spec "u7" ⟨none, none, none⟩ stAscending).1,
   (query_frame_spec "u7" ⟨none, none, none⟩ stAscending).2.1 "other" (by decide),
   (query_frame_spec "u7" ⟨none, none, none⟩ stAscending).2.2.1,
   (query_frame_spec "u7" ⟨some true, none, none⟩ stAscending).2.2.2 (Or.inl (by decide))⟩

end HubSpotGov
